import Mathlib

/-
Verification of the ATE equipment text-parsing core.

The repository consists of three Python modules:
  parsing.py   - parse_query and split_options_deterministic (deterministic core)
  prompting.py - normalize_options_via_llm (post-processing of an external
                 chat-completion response)
  app.py       - the orchestration that combines them (the normalization facade)

This file gives a shallow embedding of those functions and proves or refutes
the specification claims about them.  Python strings are modeled as List Char
(with String at the API boundary); Python str.find, str.strip, str.split,
str.lower and slicing are embedded below as executable functions.  Machine
integers play no role (all indices are nonnegative and bounded by the text
length), so Nat is used throughout.
-/

/-! ## Python string primitives (List Char based, all executable) -/

/-- Embedding of Python s.find(c, start) for a single-character needle:
index of the first occurrence of c at position at or after start, scanning
left to right; none when there is no occurrence (Python returns -1). -/
def findCharFromAux : List Char → Char → Nat → Option Nat
  | [], _, _ => none
  | x :: xs, c, i => if x = c then some i else findCharFromAux xs c (i + 1)

/-- Python s.find(c, start): search the suffix of s starting at index start. -/
def findCharFrom (s : List Char) (c : Char) (start : Nat) : Option Nat :=
  findCharFromAux (s.drop start) c start

/-- Embedding of Python slicing s[a:b] for 0 <= a, b (clamping like Python). -/
def sliceList (s : List Char) (a b : Nat) : List Char :=
  (s.drop a).take (b - a)

/-- Embedding of Python s.strip(): remove leading and trailing whitespace.
Python strips all Unicode whitespace; the inputs of this repository are ASCII,
where Char.isWhitespace agrees with the Python notion. -/
def pyStrip (s : List Char) : List Char :=
  ((s.dropWhile Char.isWhitespace).reverse.dropWhile Char.isWhitespace).reverse

/-- Helper of pySplitWs: accumulate the current word (reversed) while
scanning, emitting a word at each whitespace run boundary. -/
def pySplitWsAux : List Char → List Char → List (List Char)
  | [], acc => if acc.isEmpty then [] else [acc.reverse]
  | c :: cs, acc =>
    if Char.isWhitespace c then
      if acc.isEmpty then pySplitWsAux cs [] else acc.reverse :: pySplitWsAux cs []
    else
      pySplitWsAux cs (c :: acc)

/-- Embedding of Python s.split() with no argument: split on whitespace runs,
discarding empty fragments. -/
def pySplitWs (s : List Char) : List (List Char) :=
  pySplitWsAux s []

/-- Embedding of Python s.split(sep) for a single-character separator:
split at every occurrence, keeping empty fragments (so for example
splitting the empty string yields one empty fragment, as in Python). -/
def pySplitOnCharAux (sep : Char) : List Char → List Char → List (List Char)
  | [], acc => [acc.reverse]
  | c :: cs, acc =>
    if c = sep then acc.reverse :: pySplitOnCharAux sep cs []
    else pySplitOnCharAux sep cs (c :: acc)

/-- Python s.split(sep) (single-character separator). -/
def pySplitOnChar (sep : Char) (s : List Char) : List (List Char) :=
  pySplitOnCharAux sep s []

/-- Embedding of Python s.lower() (ASCII case folding; the stop words and
all inputs appearing in the repository are ASCII). -/
def pyLowerStr (s : String) : String :=
  String.mk (s.toList.map Char.toLower)

/-- Helper of listContainsSub: does the second list start with the first. -/
def listStartsWith : List Char → List Char → Bool
  | [], _ => true
  | _ :: _, [] => false
  | a :: as, b :: bs => a == b && listStartsWith as bs

/-- Embedding of the Python substring test (needle in haystack) on strings. -/
def listContainsSub (needle : List Char) : List Char → Bool
  | [] => needle.isEmpty
  | c :: t => listStartsWith needle (c :: t) || listContainsSub needle t

/-- Embedding of the Python sep.join for separator "/" used at
app.py line 289. -/
def joinSlash : List (List Char) → List Char
  | [] => []
  | [x] => x
  | x :: xs => x ++ '/' :: joinSlash xs

/-! ## parsing.py -/

/-- Result record of parse_query (parsing.py returns a dict with exactly
these three string keys). -/
structure ParsedQuery where
  brand : String
  model : String
  raw_options : String
deriving DecidableEq, Repr

/-- The literal stop-word list of parsing.py (lines 47, 89 and 100 repeat
this same literal, including the duplicated "like"). -/
def connecting_words : List String :=
  ["with", "options", "option", "like", "such", "as", "enter", "a", "query", "like"]

/-- Lines 47-51 and 89-93 of parsing.py (the two paths duplicate these lines
verbatim): filter the stop words case-insensitively, then take the first
surviving token as brand and the second as model, defaulting to "". -/
def pick_brand_model (words : List String) : String × String :=
  let filtered_words := words.filter (fun word => !(connecting_words.contains (pyLowerStr word)))
  (filtered_words.headD "", (filtered_words[1]?).getD "")

/-- The while loop of parse_query (parsing.py lines 61-82) computing the
end-of-options boundary.  The loop advances current_pos from slash to slash;
when no further slash exists it breaks with the computed boundary.  The fuel
argument bounds the number of iterations: each iteration strictly increases
current_pos while current_pos < s.length, so s.length + 1 units of fuel are
never exhausted, and the fuel-exhaustion branch returns options_end_index
exactly like the loop-condition exit (line 61). -/
def options_end_loop (s : List Char) : Nat → Nat → Nat → Nat
  | 0, _, options_end_index => options_end_index
  | fuel + 1, current_pos, options_end_index =>
    if current_pos < s.length then
      match findCharFrom s '/' (current_pos + 1) with
      | some next_slash => options_end_loop s fuel next_slash options_end_index
      | none =>
        -- no more slashes: find the next space to determine the end
        match findCharFrom s ' ' current_pos with
        | none => s.length
        | some next_space =>
          -- found space: last_part = text[current_pos:next_space].strip()
          let last_part := pyStrip (sliceList s current_pos next_space)
          if last_part ≠ [] ∧ last_part.headD ' ' ≠ '/' then next_space
          else current_pos + 1
    else options_end_index

/-- Entry point of the boundary scan (parsing.py lines 57-82):
options_end_index and current_pos both start at slash_index. -/
def find_options_end (s : List Char) (slash_index : Nat) : Nat :=
  options_end_loop s (s.length + 1) slash_index slash_index

/-- Embedding of parse_query (parsing.py lines 20-109).  Lines 95-101 of the
source compute a local last_word_before_slash that lines 106-107 deliberately
leave unused ("Do not combine with last word before slash"), so it does not
appear here. -/
def parse_query (text : String) : ParsedQuery :=
  let t := pyStrip text.toList
  match findCharFrom t '/' 0 with
  | none =>
    let words := (pySplitWs t).map String.mk
    let bm := pick_brand_model words
    ⟨bm.1, bm.2, ""⟩
  | some slash_index =>
    let options_end_index := find_options_end t slash_index
    let brand_model_part := pyStrip (t.take slash_index)
    let brand_model_words := (pySplitWs brand_model_part).map String.mk
    let bm := pick_brand_model brand_model_words
    let options_part := pyStrip (sliceList t slash_index options_end_index)
    ⟨bm.1, bm.2, String.mk options_part⟩

/-- Embedding of split_options_deterministic (parsing.py lines 112-136):
split on the slash, strip each fragment, keep the non-empty ones.  The
Python guard "if not raw_options" is the emptiness test for a string. -/
def split_options_deterministic (raw_options : String) : List String :=
  if raw_options = "" then []
  else
    (((pySplitOnChar '/' raw_options.toList).map pyStrip).filter
      (fun option => !option.isEmpty)).map String.mk

/-- Python permits calling split_options_deterministic with None; the guard
"if not raw_options" then also returns the empty list.  This wrapper models
the nullable argument of the documented contract. -/
def split_options_deterministic_opt : Option String → List String
  | none => []
  | some s => split_options_deterministic s

/-! ## A model of Python JSON values

The collaborator response is parsed with json.loads (Python stdlib, external
to this repository); its result is a tree of dicts, lists, strings, numbers,
booleans and None.  json.loads itself is modeled abstractly: a response
content string maps to an Except Unit Json parse outcome (error = the
json.JSONDecodeError that the surrounding try/except catches).  Dicts are
association lists in insertion order with unique keys, which is what
json.loads produces. -/
inductive Json where
  | null
  | bool (b : Bool)
  | num (n : Int)
  | str (s : String)
  | arr (elems : List Json)
  | obj (fields : List (String × Json))

/-- Python d[k] lookup on a dict modeled as an insertion-ordered association
list (first match; json.loads dicts have unique keys). -/
def getAssoc : List (String × Json) → String → Option Json
  | [], _ => none
  | (k1, v) :: rest, k => if k1 = k then some v else getAssoc rest k

/-- Python d[k] = v on a dict: replace the value at an existing key keeping
its position, or append a new binding at the end. -/
def setAssoc : List (String × Json) → String → Json → List (String × Json)
  | [], k, v => [(k, v)]
  | (k1, v1) :: rest, k, v =>
    if k1 = k then (k, v) :: rest else (k1, v1) :: setAssoc rest k v

/-- Python subscript j[k] with a string key: key lookup on a dict (KeyError
when absent); TypeError on every other JSON value.  Both exceptions are
modeled as the error case, since the caller catches every exception alike. -/
def jget (j : Json) (k : String) : Except Unit Json :=
  match j with
  | .obj fields =>
    match getAssoc fields k with
    | some v => .ok v
    | none => .error ()
  | _ => .error ()

/-- Python subscript assignment j[k] = v with a string key: dict update, or
TypeError on every other JSON value. -/
def jset (j : Json) (k : String) (v : Json) : Except Unit Json :=
  match j with
  | .obj fields => .ok (.obj (setAssoc fields k v))
  | _ => .error ()

/-! ## prompting.py -/

/-- The fallback structure of normalize_options_via_llm
(prompting.py lines 385-392 and 396-403, both literals identical). -/
def fallback_payload : Json :=
  .obj [("normalized", .obj [("brand", .str ""), ("model", .str ""), ("options", .arr [])]),
        ("results", .arr [])]

/-- Embedding of the Python membership test ("normalized" in data) at
prompting.py line 384, for each value json.loads can return: key membership
for a dict, element equality for a list (a string equals only an equal
string under Python ==), substring containment for a string, and TypeError
(the error case) for numbers, booleans and None. -/
def py_contains_normalized (data : Json) : Except Unit Bool :=
  match data with
  | .obj fields => .ok (fields.any (fun f => f.1 == "normalized"))
  | .arr elems =>
    .ok (elems.any (fun e => match e with | .str s => s == "normalized" | _ => false))
  | .str s => .ok (listContainsSub "normalized".toList s.toList)
  | _ => .error ()

/-- Embedding of the response post-processing of normalize_options_via_llm
(prompting.py lines 379-403).  The OpenAI chat call (lines 370-377) is the
external collaborator; the argument is the json.loads outcome of the content
it returned (with content None replaced by the empty object text, line 380).
Any exception inside the try block (json.loads failure, or a TypeError from
the membership test) lands in the except branch returning the fallback. -/
def normalize_options_via_llm (parsed_content : Except Unit Json) : Json :=
  match parsed_content with
  | .error _ => fallback_payload
  | .ok data =>
    match py_contains_normalized data with
    | .error _ => fallback_payload
    | .ok true => data
    | .ok false => fallback_payload

/-! ## app.py (the normalization facade, main lines 274-329) -/

/-- Outcome of the external text-completion collaborator as observed by the
try block of app.py: no client (get_openai_client returns None when the API
key is empty), an exception raised by the chat-completion call, or a
response whose content has the given json.loads outcome. -/
inductive LLMOutcome where
  | noClient
  | createError
  | response (parsed_content : Except Unit Json)

/-- Embedding of app.py lines 280-291: derive raw_options from the options
column of the selected row.  Split on the slash, strip, drop empty
fragments, then drop any option equal (case-insensitively) to the brand or
model hint, and rejoin with slashes.  The Python guard "if options_str" is
the emptiness test. -/
def raw_options_from (brand_parsed model_parsed options_str : String) : String :=
  if options_str = "" then ""
  else
    let raw_options_list :=
      ((pySplitOnChar '/' options_str.toList).map pyStrip).filter (fun o => !o.isEmpty)
    let brand_lower := brand_parsed.toList.map Char.toLower
    let model_lower := model_parsed.toList.map Char.toLower
    let filtered_options := raw_options_list.filter (fun opt =>
      !(opt.map Char.toLower == brand_lower || opt.map Char.toLower == model_lower)
        && opt.length != 0)
    String.mk (joinSlash filtered_options)

/-- Lines 318-319 of app.py, shared by both branches inside the try block:
payload["normalized"]["brand"] = brand_parsed and likewise for model.  The
subscript chain reads the inner dict, sets the field and (being an in-place
mutation) leaves the updated dict at the same key. -/
def set_normalized_field (payload : Json) (field : String) (v : Json) : Except Unit Json :=
  match jget payload "normalized" with
  | .error e => .error e
  | .ok n =>
    match jset n field v with
    | .error e => .error e
    | .ok n2 => jset payload "normalized" n2

/-- Both assignment lines 318-319 in sequence (an exception in the first
aborts the try block before the second runs). -/
def apply_hint_overrides (payload : Json) (brand_parsed model_parsed : String) : Except Unit Json :=
  match set_normalized_field payload "brand" (.str brand_parsed) with
  | .error e => .error e
  | .ok p1 => set_normalized_field p1 "model" (.str model_parsed)

/-- The payload built in the except branch of app.py (lines 320-329). -/
def local_fallback_payload (brand_parsed model_parsed : String) : Json :=
  .obj [("normalized", .obj [("brand", .str brand_parsed), ("model", .str model_parsed),
          ("options", .arr [])]),
        ("results", .arr [])]

/-- The try/except boundary of app.py lines 294-329: a normally computed
payload is kept, any exception is replaced by the local fallback payload. -/
def finish_try (tryResult : Except Unit Json) (brand_parsed model_parsed : String) : Json :=
  match tryResult with
  | .ok p => p
  | .error _ => local_fallback_payload brand_parsed model_parsed

/-- Embedding of the normalization facade, app.py lines 280-329: compute
raw_options from the options column (outside the try block), then inside the
try block either call the collaborator or build the deterministic local
payload, then force the brand and model fields to the hints; any exception
lands in the except branch producing the local fallback payload. -/
def app_normalize (outcome : LLMOutcome) (brand_parsed model_parsed options_str : String) : Json :=
  let raw_options := raw_options_from brand_parsed model_parsed options_str
  let tryResult : Except Unit Json :=
    match outcome with
    | .noClient =>
      apply_hint_overrides
        (.obj [("normalized", .obj [("brand", .str brand_parsed), ("model", .str model_parsed),
                 ("options", .arr ((split_options_deterministic raw_options).map Json.str))]),
               ("results", .arr [])])
        brand_parsed model_parsed
    | .createError => .error ()
    | .response parsed_content =>
      apply_hint_overrides (normalize_options_via_llm parsed_content) brand_parsed model_parsed
  finish_try tryResult brand_parsed model_parsed

/-- Observer used in theorem statements: the field of the normalized
sub-object of a payload, when present. -/
def getNormField (j : Json) (field : String) : Option Json :=
  match j with
  | .obj fields =>
    match getAssoc fields "normalized" with
    | some (.obj nf) => getAssoc nf field
    | _ => none
  | _ => none

/-! ## Definitions taken from the words of the specification

These are the claim-side definitions needed to compare the code against the
specification text.  Each one is written from the quoted spec sentence, not
from the source. -/

/-- The stop-word set exactly as the specification lists it (data model
section).  The source code of parsing.py only ever filters against the
shorter literal list connecting_words. -/
def spec_stopword_set : List String :=
  ["with", "options", "option", "like", "such", "as", "enter", "a", "query",
   "the", "is", "has", "to", "be", "delivered", "soon", "please", "need",
   "want", "find", "search", "looking", "for"]

/-- The option splitter as the specification words it: the left-to-right
sequence of slash-delimited fragments, each trimmed of whitespace, with
fragments that are empty after trimming discarded. -/
def split_spec (x : String) : List String :=
  (((pySplitOnChar '/' x.toList).map pyStrip).filter (fun o => !o.isEmpty)).map String.mk

/-- The derivation of the local option list as claim C9 words it: run the
query parser over the combined brand/model/options text (the llm_input
string of app.py line 297), split the resulting raw options, and filter out
any option token equal case-insensitively to the brand or model hint. -/
def c9_claimed_options (brand_parsed model_parsed options_str : String) : List String :=
  let raw := raw_options_from brand_parsed model_parsed options_str
  let combined :=
    if raw = "" then brand_parsed ++ " " ++ model_parsed
    else brand_parsed ++ " " ++ model_parsed ++ " " ++ raw
  (split_options_deterministic (parse_query combined).raw_options).filter
    (fun t => !(pyLowerStr t == pyLowerStr brand_parsed || pyLowerStr t == pyLowerStr model_parsed))

/-- The NormalizedRecord top-level shape as the specification words it
(external interfaces section): an object whose normalized field is an object
with a string brand, a string model and an array of strings as options, and
whose results field is an array. -/
def conforms_normalized_record (j : Json) : Bool :=
  match j with
  | .obj fields =>
    (match getAssoc fields "normalized" with
     | some (.obj nf) =>
       (match getAssoc nf "brand" with | some (.str _) => true | _ => false)
       && (match getAssoc nf "model" with | some (.str _) => true | _ => false)
       && (match getAssoc nf "options" with
           | some (.arr elems) => elems.all (fun e => match e with | .str _ => true | _ => false)
           | _ => false)
     | _ => false)
    && (match getAssoc fields "results" with | some (.arr _) => true | _ => false)
  | _ => false

/-! ## Helper lemmas -/

/-- Looking up the key just set yields the new value. -/
theorem getAssoc_setAssoc_self (l : List (String × Json)) (k : String) (v : Json) :
    getAssoc (setAssoc l k v) k = some v := by
  induction l with
  | nil => simp [setAssoc, getAssoc]
  | cons hd tl ih =>
    obtain ⟨k1, v1⟩ := hd
    by_cases h : k1 = k
    · simp [setAssoc, h, getAssoc]
    · simp [setAssoc, h, getAssoc, ih]

/-- Setting one key leaves lookups of a different key unchanged. -/
theorem getAssoc_setAssoc_ne (l : List (String × Json)) (k k1 : String) (v : Json)
    (h : k1 ≠ k) : getAssoc (setAssoc l k1 v) k = getAssoc l k := by
  induction l with
  | nil => simp [setAssoc, getAssoc, h]
  | cons hd tl ih =>
    obtain ⟨k2, v2⟩ := hd
    simp only [setAssoc]
    by_cases h2 : k2 = k1
    · subst h2
      rw [if_pos rfl]
      simp only [getAssoc]
      rw [if_neg h, if_neg h]
    · rw [if_neg h2]
      simp only [getAssoc]
      by_cases h3 : k2 = k
      · rw [if_pos h3, if_pos h3]
      · rw [if_neg h3, if_neg h3]
        exact ih

/-- The head of a filtered list (with a default satisfying the predicate)
satisfies the predicate. -/
theorem filter_headD_sat (p : String → Bool) (words : List String) (hd : p "" = true) :
    p ((words.filter p).headD "") = true := by
  cases hf : words.filter p with
  | nil => simpa using hd
  | cons a t =>
    have ha : a ∈ words.filter p := by
      rw [hf]; exact List.mem_cons_self a t
    simpa using (List.mem_filter.mp ha).2

/-- The second element of a filtered list (with a default satisfying the
predicate) satisfies the predicate. -/
theorem filter_second_sat (p : String → Bool) (words : List String) (hd : p "" = true) :
    p (((words.filter p)[1]?).getD "") = true := by
  cases hg : (words.filter p)[1]? with
  | none => simpa using hd
  | some w =>
    have hw : w ∈ words.filter p := List.getElem?_mem hg
    simpa using (List.mem_filter.mp hw).2

/-- Neither component of pick_brand_model is a stop word of the source list
(case-insensitively): the empty default is no stop word, and every filtered
word passed the stop word test. -/
theorem pick_brand_model_not_stopword (words : List String) :
    connecting_words.contains (pyLowerStr (pick_brand_model words).1) = false ∧
    connecting_words.contains (pyLowerStr (pick_brand_model words).2) = false := by
  have h1 := filter_headD_sat (fun word => !(connecting_words.contains (pyLowerStr word))) words (by decide)
  have h2 := filter_second_sat (fun word => !(connecting_words.contains (pyLowerStr word))) words (by decide)
  unfold pick_brand_model
  exact ⟨by simpa using h1, by simpa using h2⟩

/-- On an exception, the except branch produces a payload whose normalized
brand and model are the hints. -/
theorem fallback_brand_model (b m : String) (e : Unit) :
    getNormField (finish_try (Except.error e) b m) "brand" = some (Json.str b) ∧
    getNormField (finish_try (Except.error e) b m) "model" = some (Json.str m) :=
  ⟨rfl, rfl⟩

/-- After forcing brand and model (app.py lines 318-319) and resolving the
try/except boundary, the normalized brand and model fields hold exactly the
hints, whatever payload the collaborator produced. -/
theorem hint_override_post (payload : Json) (b m : String) :
    getNormField (finish_try (apply_hint_overrides payload b m) b m) "brand" = some (.str b) ∧
    getNormField (finish_try (apply_hint_overrides payload b m) b m) "model" = some (.str m) := by
  cases payload with
  | obj fields =>
    cases hn : getAssoc fields "normalized" with
    | none =>
      have hov : apply_hint_overrides (Json.obj fields) b m = .error () := by
        simp [apply_hint_overrides, set_normalized_field, jget, hn]
      rw [hov]; exact fallback_brand_model b m ()
    | some n =>
      cases n with
      | obj nf =>
        have hs1 : set_normalized_field (Json.obj fields) "brand" (Json.str b) =
            .ok (Json.obj (setAssoc fields "normalized"
              (Json.obj (setAssoc nf "brand" (Json.str b))))) := by
          simp [set_normalized_field, jget, hn, jset]
        have hs2 : set_normalized_field
            (Json.obj (setAssoc fields "normalized" (Json.obj (setAssoc nf "brand" (Json.str b)))))
            "model" (Json.str m) =
            .ok (Json.obj (setAssoc (setAssoc fields "normalized"
              (Json.obj (setAssoc nf "brand" (Json.str b)))) "normalized"
              (Json.obj (setAssoc (setAssoc nf "brand" (Json.str b)) "model" (Json.str m))))) := by
          simp [set_normalized_field, jget, jset, getAssoc_setAssoc_self]
        have hov : apply_hint_overrides (Json.obj fields) b m =
            .ok (Json.obj (setAssoc (setAssoc fields "normalized"
              (Json.obj (setAssoc nf "brand" (Json.str b)))) "normalized"
              (Json.obj (setAssoc (setAssoc nf "brand" (Json.str b)) "model" (Json.str m))))) := by
          simp [apply_hint_overrides, hs1, hs2]
        rw [hov]
        constructor
        · simp only [finish_try, getNormField, getAssoc_setAssoc_self]
          rw [getAssoc_setAssoc_ne _ _ _ _ (by decide), getAssoc_setAssoc_self]
        · simp only [finish_try, getNormField, getAssoc_setAssoc_self]
      | null =>
        have hov : apply_hint_overrides (Json.obj fields) b m = .error () := by
          simp [apply_hint_overrides, set_normalized_field, jget, hn, jset]
        rw [hov]; exact fallback_brand_model b m ()
      | bool b2 =>
        have hov : apply_hint_overrides (Json.obj fields) b m = .error () := by
          simp [apply_hint_overrides, set_normalized_field, jget, hn, jset]
        rw [hov]; exact fallback_brand_model b m ()
      | num n2 =>
        have hov : apply_hint_overrides (Json.obj fields) b m = .error () := by
          simp [apply_hint_overrides, set_normalized_field, jget, hn, jset]
        rw [hov]; exact fallback_brand_model b m ()
      | str s2 =>
        have hov : apply_hint_overrides (Json.obj fields) b m = .error () := by
          simp [apply_hint_overrides, set_normalized_field, jget, hn, jset]
        rw [hov]; exact fallback_brand_model b m ()
      | arr xs =>
        have hov : apply_hint_overrides (Json.obj fields) b m = .error () := by
          simp [apply_hint_overrides, set_normalized_field, jget, hn, jset]
        rw [hov]; exact fallback_brand_model b m ()
  | null =>
    have hov : apply_hint_overrides Json.null b m = .error () := by
      simp [apply_hint_overrides, set_normalized_field, jget]
    rw [hov]; exact fallback_brand_model b m ()
  | bool b2 =>
    have hov : apply_hint_overrides (Json.bool b2) b m = .error () := by
      simp [apply_hint_overrides, set_normalized_field, jget]
    rw [hov]; exact fallback_brand_model b m ()
  | num n2 =>
    have hov : apply_hint_overrides (Json.num n2) b m = .error () := by
      simp [apply_hint_overrides, set_normalized_field, jget]
    rw [hov]; exact fallback_brand_model b m ()
  | str s2 =>
    have hov : apply_hint_overrides (Json.str s2) b m = .error () := by
      simp [apply_hint_overrides, set_normalized_field, jget]
    rw [hov]; exact fallback_brand_model b m ()
  | arr xs =>
    have hov : apply_hint_overrides (Json.arr xs) b m = .error () := by
      simp [apply_hint_overrides, set_normalized_field, jget]
    rw [hov]; exact fallback_brand_model b m ()

/-! ## Claim theorems -/

/-- C1: the specification claims that parsing the string
"Agilent 8116A /160/EEC/PLK/UK6 has to be delivered soon" yields brand
"Agilent", model "8116A" and raw_options exactly "/160/EEC/PLK/UK6", with
the trailing token "UK6" after the final slash included in the options span.
Evaluating the embedded parse_query at that input shows the code instead
stops immediately after the final slash, producing "/160/EEC/PLK/": the
fragment checked at parsing.py line 72 starts at the final slash itself, so
the startswith test at line 73 always succeeds and the include-the-word
branch is unreachable, contradicting the intent stated in the source
comments (lines 55-56 and 73-74).  This theorem evaluates the code at the
failing input. -/
theorem C1_parse_at_failing_input :
    parse_query "Agilent 8116A /160/EEC/PLK/UK6 has to be delivered soon" =
      ⟨"Agilent", "8116A", "/160/EEC/PLK/"⟩ := by decide

/-- C2: the specification claims that when whitespace follows the final
slash and the text between the final slash and that whitespace is a
non-empty token not starting with a slash, the boundary is at that
whitespace.  In the input "X /A/B hello" the final slash is at index 4, a
space follows at index 6, and the token "B" between them is non-empty and
does not start with a slash, so the claimed boundary is 6 and raw_options
would be "/A/B".  The code places the boundary at 5 (immediately after the
final slash) because the checked fragment text[4:6] = "/B" itself starts at
the slash, making the inclusion branch dead code; raw_options is "/A/".
This theorem evaluates the boundary scan and the parser at that input. -/
theorem C2_boundary_at_failing_input :
    find_options_end "X /A/B hello".toList 2 = 5 ∧
    parse_query "X /A/B hello" = ⟨"X", "", "/A/"⟩ := by decide

/-- C3 counterexample: the claim states that parsing
"Agilent 8116A with options like 160/EEC/PLK/UK6 please deliver quickly"
yields raw_options exactly "160/EEC/PLK/UK6" with the token "160" before
the first slash included.  The code disagrees. -/
theorem C3_counterexample :
    (parse_query "Agilent 8116A with options like 160/EEC/PLK/UK6 please deliver quickly").raw_options
      ≠ "160/EEC/PLK/UK6" := by decide

/-- C3 amended: the code returns brand "Agilent", model "8116A" and
raw_options "/EEC/PLK/": the token "160" before the first slash is used for
brand/model discovery only and is never folded into raw_options (a
deliberate choice, parsing.py lines 106-107), and the raw options span runs
from the first slash to just after the final slash, excluding the trailing
token "UK6". -/
theorem C3_amended_parse :
    parse_query "Agilent 8116A with options like 160/EEC/PLK/UK6 please deliver quickly" =
      ⟨"Agilent", "8116A", "/EEC/PLK/"⟩ := by decide

/-- C4 counterexample: the claim states that a token equal
case-insensitively to any member of the 22-word spec stop-word set is never
selected as brand or model.  The word "is" belongs to that set, yet parsing
"is 123A" selects "is" as the brand, because the source filters only its
own shorter literal list. -/
theorem C4_counterexample :
    (parse_query "is 123A").brand = "is" ∧ "is" ∈ spec_stopword_set := by decide

/-- C4 amended: for every input, no token equal case-insensitively to a
member of the stop-word list actually present in the source (the nine
distinct words "with", "options", "option", "like", "such", "as", "enter",
"a", "query") is ever selected as brand or model, on both the no-slash path
and the with-slash path; the two paths filter against literal lists with
identical contents. -/
theorem C4_amended_no_stopword_selected (text : String) :
    connecting_words.contains (pyLowerStr (parse_query text).brand) = false ∧
    connecting_words.contains (pyLowerStr (parse_query text).model) = false := by
  simp only [parse_query]
  cases h : findCharFrom (pyStrip text.toList) '/' 0 with
  | none => exact pick_brand_model_not_stopword _
  | some slash_index => exact pick_brand_model_not_stopword _

/-- C5: the option splitter equals, on every input, the trimmed slash
fragments of the input with empties discarded (hence order preserved and no
deduplication), contains no empty-string element, and yields the empty
sequence on the empty string and on a null argument.  Purity and totality
are intrinsic to the embedding, which is a total function. -/
theorem C5_split_correct :
    (∀ x : String, split_options_deterministic x = split_spec x ∧
      ∀ o ∈ split_options_deterministic x, o ≠ "") ∧
    split_options_deterministic "" = [] ∧
    split_options_deterministic_opt none = [] := by
  have heq : ∀ x : String, split_options_deterministic x = split_spec x := by
    intro x
    by_cases h : x = ""
    · subst h; decide
    · unfold split_options_deterministic split_spec
      rw [if_neg h]
  refine ⟨fun x => ⟨heq x, ?_⟩, by decide, rfl⟩
  intro o ho
  rw [heq x] at ho
  unfold split_spec at ho
  obtain ⟨o1, ho1, rfl⟩ := List.mem_map.mp ho
  have hmem := List.mem_filter.mp ho1
  intro hempty
  have hnil : o1 = [] := by simpa using congrArg String.data hempty
  subst hnil
  simp at hmem

/-- C6: for every call to the normalization facade - collaborator available
or not, call succeeding or failing - the returned record has its normalized
brand and model fields equal to the caller-supplied hints, overriding
whatever the collaborator or the local construction produced. -/
theorem C6_brand_model_forced (outcome : LLMOutcome) (b m o : String) :
    getNormField (app_normalize outcome b m o) "brand" = some (Json.str b) ∧
    getNormField (app_normalize outcome b m o) "model" = some (Json.str m) := by
  cases outcome with
  | noClient =>
    exact hint_override_post
      (.obj [("normalized", .obj [("brand", .str b), ("model", .str m),
        ("options", .arr ((split_options_deterministic (raw_options_from b m o)).map Json.str))]),
        ("results", .arr [])]) b m
  | createError => exact fallback_brand_model b m ()
  | response parsed_content => exact hint_override_post (normalize_options_via_llm parsed_content) b m

/-- C7 counterexample: the claim states that when the collaborator call
fails, the caller receives the deterministic fallback record whose options
are the option splitter applied to the locally derived raw options.  With
hints "Agilent" / "8116A" and options column "001/002" the splitter yields
["001", "002"], but the facade returns the except-branch payload whose
options array is empty, so the returned record differs from the claimed
one. -/
theorem C7_counterexample :
    app_normalize .createError "Agilent" "8116A" "001/002" =
      local_fallback_payload "Agilent" "8116A" ∧
    split_options_deterministic (raw_options_from "Agilent" "8116A" "001/002") = ["001", "002"] ∧
    app_normalize .createError "Agilent" "8116A" "001/002" ≠
      Json.obj [("normalized", Json.obj [("brand", Json.str "Agilent"), ("model", Json.str "8116A"),
        ("options", Json.arr [Json.str "001", Json.str "002"])]), ("results", Json.arr [])] := by
  refine ⟨rfl, by decide, fun h => ?_⟩
  have h2 : local_fallback_payload "Agilent" "8116A" =
      Json.obj [("normalized", Json.obj [("brand", Json.str "Agilent"), ("model", Json.str "8116A"),
        ("options", Json.arr [Json.str "001", Json.str "002"])]), ("results", Json.arr [])] := h
  simp [local_fallback_payload] at h2

/-- C7 amended: when the collaborator call raises, the caller observes no
exception and receives the record with brand and model set to the hints and
an empty options array; the splitter-based record is produced only on the
no-collaborator path. -/
theorem C7_amended_failure_payload (b m o : String) :
    app_normalize .createError b m o =
      Json.obj [("normalized", Json.obj [("brand", Json.str b), ("model", Json.str m),
        ("options", Json.arr [])]), ("results", Json.arr [])] := rfl

/-- C8 counterexample: the claim states that every collaborator response
that is valid JSON but lacks a "normalized" key is replaced by the fallback
record.  The JSON document consisting of the bare string "normalized" has
no keys at all, yet the Python membership test succeeds by substring
containment, so the response is returned unchanged instead of the
fallback. -/
theorem C8_counterexample :
    normalize_options_via_llm (Except.ok (Json.str "normalized")) = Json.str "normalized" ∧
    Json.str "normalized" ≠ fallback_payload :=
  ⟨rfl, by simp [fallback_payload]⟩

/-- C8 amended: a response that fails to parse as JSON, or parses to a
value on which the Python membership test for "normalized" is false or
raises, is silently replaced by the fallback record
with empty brand, model, options and results. -/
theorem C8_amended_fallback (d : Json) (h : py_contains_normalized d ≠ Except.ok true) :
    normalize_options_via_llm (Except.ok d) = fallback_payload ∧
    normalize_options_via_llm (Except.error ()) = fallback_payload := by
  refine ⟨?_, rfl⟩
  simp only [normalize_options_via_llm]
  cases hc : py_contains_normalized d with
  | error e => rfl
  | ok b2 =>
    cases b2 with
    | true => exact absurd hc h
    | false => rfl

/-- C8 witness: the amended theorem applied at the empty JSON object, whose
membership test is false. -/
theorem C8_amended_fallback_witness :
    py_contains_normalized (Json.obj []) ≠ Except.ok true ∧
    (normalize_options_via_llm (Except.ok (Json.obj [])) = fallback_payload ∧
     normalize_options_via_llm (Except.error ()) = fallback_payload) := by
  have h : py_contains_normalized (Json.obj []) ≠ Except.ok true := by
    simp [py_contains_normalized]
  exact ⟨h, C8_amended_fallback (Json.obj []) h⟩

/-- C9 counterexample: the claim states that the no-collaborator result has
as options the splitter applied to a rawOptions obtained by running the
query parser over the combined brand/model/options text.  With hints
"Agilent" / "8116A" and options column "001/002", the combined text is
"Agilent 8116A 001/002"; the parser keeps only "/002" as raw options, so
the claimed derivation yields ["002"], while the facade actually returns
["001", "002"] (derived directly from the options column, without ever
calling the parser), so the returned record differs from the claimed
one. -/
theorem C9_counterexample :
    app_normalize .noClient "Agilent" "8116A" "001/002" =
      Json.obj [("normalized", Json.obj [("brand", Json.str "Agilent"), ("model", Json.str "8116A"),
        ("options", Json.arr [Json.str "001", Json.str "002"])]), ("results", Json.arr [])] ∧
    c9_claimed_options "Agilent" "8116A" "001/002" = ["002"] ∧
    app_normalize .noClient "Agilent" "8116A" "001/002" ≠
      Json.obj [("normalized", Json.obj [("brand", Json.str "Agilent"), ("model", Json.str "8116A"),
        ("options", Json.arr ((c9_claimed_options "Agilent" "8116A" "001/002").map Json.str))]),
        ("results", Json.arr [])] := by
  refine ⟨rfl, by decide, fun h => ?_⟩
  rw [show c9_claimed_options "Agilent" "8116A" "001/002" = ["002"] from by decide] at h
  have h2 : Json.obj [("normalized", Json.obj [("brand", Json.str "Agilent"), ("model", Json.str "8116A"),
      ("options", Json.arr [Json.str "001", Json.str "002"])]), ("results", Json.arr [])] =
      Json.obj [("normalized", Json.obj [("brand", Json.str "Agilent"), ("model", Json.str "8116A"),
      ("options", Json.arr [Json.str "002"])]), ("results", Json.arr [])] := h
  simp at h2

/-- C9 amended: with no collaborator available the facade returns exactly
the record with brand and model set to the hints, results empty, and
options equal to the splitter applied to the raw options derived from the
options column (split on slashes, trimmed, empties dropped, tokens equal
case-insensitively to a hint removed, rejoined); the query parser plays no
part in this path. -/
theorem C9_amended_local_record (b m o : String) :
    app_normalize .noClient b m o =
      Json.obj [("normalized", Json.obj [("brand", Json.str b), ("model", Json.str m),
        ("options", Json.arr ((split_options_deterministic (raw_options_from b m o)).map Json.str))]),
        ("results", Json.arr [])] := rfl

/-- C10 counterexample: the claim states that every accepted collaborator
response (valid JSON containing a "normalized" key) is returned in a form
conforming to the NormalizedRecord top-level shape.  The object whose
"normalized" field is the number 5 is accepted and returned verbatim, yet
it conforms to nothing: normalized is not an object and there is no
results key.  No shape validation beyond the key-membership test exists. -/
theorem C10_counterexample :
    py_contains_normalized (Json.obj [("normalized", Json.num 5)]) = Except.ok true ∧
    normalize_options_via_llm (Except.ok (Json.obj [("normalized", Json.num 5)])) =
      Json.obj [("normalized", Json.num 5)] ∧
    conforms_normalized_record (Json.obj [("normalized", Json.num 5)]) = false :=
  ⟨rfl, rfl, rfl⟩

/-- C10 amended: every response passing the membership test for
"normalized" is returned to the caller verbatim; the code validates nothing
else about its shape. -/
theorem C10_amended_verbatim (data : Json) (h : py_contains_normalized data = Except.ok true) :
    normalize_options_via_llm (Except.ok data) = data := by
  simp only [normalize_options_via_llm, h]

/-- C10 witness: the amended theorem applied at an object carrying a
"normalized" key. -/
theorem C10_amended_verbatim_witness :
    py_contains_normalized (Json.obj [("normalized", Json.arr [])]) = Except.ok true ∧
    normalize_options_via_llm (Except.ok (Json.obj [("normalized", Json.arr [])])) =
      Json.obj [("normalized", Json.arr [])] :=
  ⟨rfl, C10_amended_verbatim _ rfl⟩
